import Mathlib

/-!
Shallow embedding of the XML-validation CLI (`validator/__main__.py`).

The program resolves its two arguments (local path, `file://` URI, `http(s)://`
URL or `ftp://` URL) into content, runs an external XML-Schema validator on the
result and formats the outcome as terminal text.  External effects (HTTP
responses, the FTP server, the filesystem, UTF-8 decoding and the black-box
validator) are parameters of the model (`World`, `Validator`); the control flow,
string handling and message formatting are translated line by line from the
source.
-/

namespace XmlValidatorCli

/-- If `pat` is a prefix of `l`, the remainder of `l` after it. -/
def dropMatch : List Char → List Char → Option (List Char)
  | l, [] => some l
  | [], _ :: _ => none
  | x :: xs, p :: ps => if x = p then dropMatch xs ps else none

/-- Python substring membership `pat in s`, on character lists. -/
def listContains (l pat : List Char) : Bool :=
  match l with
  | [] => pat.isEmpty
  | _ :: xs => (dropMatch l pat).isSome || listContains xs pat

/-- Python substring membership `pat in s`. -/
def strContains (s pat : String) : Bool := listContains s.toList pat.toList

/-- Python `s.startswith(pre)`. -/
def pyStartsWith (s pre : String) : Bool := (dropMatch s.toList pre.toList).isSome

/-- Replacement pass of Python `str.replace` (leftmost, non-overlapping), with
fuel; for a nonempty pattern every step consumes at least one character of the
text, so fuel equal to the text's length is enough. -/
def replaceFuel : Nat → List Char → List Char → List Char → List Char
  | 0, l, _, _ => l
  | _ + 1, [], _, _ => []
  | n + 1, x :: xs, pat, rep =>
    match dropMatch (x :: xs) pat with
    | some rest => rep ++ replaceFuel n rest pat rep
    | none => x :: replaceFuel n xs pat rep

/-- Python `str.replace old new` for a nonempty `old`: replace every leftmost
non-overlapping occurrence. -/
def pyReplace (s old new : String) : String :=
  String.mk (replaceFuel s.toList.length s.toList old.toList new.toList)

/-- Split a character list at the first occurrence of `c`. -/
def splitFirst : List Char → Char → Option (List Char × List Char)
  | [], _ => none
  | x :: xs, c =>
    if x = c then some ([], xs)
    else
      match splitFirst xs c with
      | none => none
      | some (a, b) => some (x :: a, b)

/-- Valid characters of a URL scheme, per `urllib.parse`. -/
def isSchemeChar (c : Char) : Bool := c.isAlphanum || c == '+' || c == '-' || c == '.'

/-- Scheme, netloc and path of a URL, following `urllib.parse.urlparse` on the
query-free, fragment-free URLs this tool handles: the scheme is the (lowercased)
text before the first colon when it is alphabetic-led and scheme-charactered,
the netloc is the text between `//` and the next `/`, the path is the rest. -/
def parseUrl (url : String) : String × String × String :=
  match splitFirst url.toList ':' with
  | none => ("", "", url)
  | some (pre, post) =>
    if !pre.isEmpty && (pre.headD ' ').isAlpha && pre.all isSchemeChar then
      match post with
      | '/' :: '/' :: rest =>
          ((String.mk (pre.map Char.toLower)),
           String.mk (rest.takeWhile (fun c => c ≠ '/')),
           String.mk (rest.dropWhile (fun c => c ≠ '/')))
      | _ => ((String.mk (pre.map Char.toLower)), "", String.mk post)
    else ("", "", url)

/-- An HTTP response as seen through `requests`: status code, reason phrase,
`Content-Type` header, body text and the final URL (`resp.url`). -/
structure HttpResponse where
  status : Nat
  reason : String
  contentType : String
  body : String
  finalUrl : String

/-- Errors raised by the resolver (`xmlFromURL` and its helpers); each carries
the message of the exception the Python code raises at that site. -/
inductive ResolveErr where
  | httpStatus (msg : String)
  | notXml (msg : String)
  | badPath (msg : String)
  | ftpProto (msg : String)
deriving DecidableEq

/-- Message carried by a resolver error (what `click.echo(error)` prints). -/
def ResolveErr.text : ResolveErr → String
  | .httpStatus m => m
  | .notXml m => m
  | .badPath m => m
  | .ftpProto m => m

/-- Calls recorded against the FTP connection object. -/
inductive FtpEvent where
  | connect (host : String)
  | login
  | retr (cmd : String)
  | close
deriving DecidableEq

/-- In-memory byte buffer with a read/write position, mirroring `io.BytesIO`.
In the source the buffer starts empty and is only written, so the position
always sits at the end of the data and a write is an append. -/
structure Buffer where
  data : List Nat
  pos : Nat

/-- `BytesIO.write` on a sequentially written buffer: append the chunk and
advance the position past it. -/
def Buffer.write (b : Buffer) (chunk : List Nat) : Buffer :=
  { data := b.data ++ chunk, pos := b.pos + chunk.length }

/-- The external effects the program touches: `requests.get`, the FTP server
(login outcome and `RETR` payload, delivered as the chunks handed to the
callback), the filesystem (`Path.is_file`, `Path.absolute`) and
`bytes.decode("UTF-8")`. -/
structure World where
  http : String → HttpResponse
  ftpLogin : String → Option String
  ftpRetr : String → String → Except String (List (List Nat))
  isFile : String → Bool
  absolute : String → String
  decodeUtf8 : List Nat → String

/-- Content types accepted by `_process_http_reponse` (line 22): the check is
substring containment against each entry. -/
def cntTypeList : List String := ["text/plain", "xml"]

/-- Whether a `Content-Type` header passes the check on line 28. -/
def contentTypeOk (ct : String) : Bool := cntTypeList.any (fun x => strContains ct x)

/-- `requests.Response.raise_for_status`: an `HTTPError` message for a 4xx or
5xx status, nothing otherwise. -/
def raiseForStatus (r : HttpResponse) : Option String :=
  if 400 ≤ r.status ∧ r.status ≤ 499 then
    some (toString r.status ++ " Client Error: " ++ r.reason ++ " for url: " ++ r.finalUrl)
  else if 500 ≤ r.status ∧ r.status ≤ 599 then
    some (toString r.status ++ " Server Error: " ++ r.reason ++ " for url: " ++ r.finalUrl)
  else none

/-- `_process_http_reponse` (lines 19-35): on a non-200 status defer to
`raise_for_status` (which only raises on 4xx/5xx, so other statuses fall
through and return the initial empty `result`); on 200 reject content types
containing neither entry of `cntTypeList`; otherwise return the body. -/
def processHttpReponse (scheme : String) (resp : HttpResponse) : Except ResolveErr String :=
  if resp.status ≠ 200 then
    match raiseForStatus resp with
    | some m => Except.error (ResolveErr.httpStatus m)
    | none => Except.ok ""
  else if (scheme = "http" ∨ scheme = "https") ∧ contentTypeOk resp.contentType = false then
    Except.error (ResolveErr.notXml
      ("Error: Content of the URL (" ++ resp.finalUrl ++
        ")\nis not in XML format. Make sure the URL is correct.\n"))
  else
    Except.ok resp.body

/-- The `http`/`https` arm of `xmlFromURL` (lines 58-60 and 74-77): run the GET
and wrap an `HTTPError` into the message `str(err) + "" + url + ...`. -/
def httpFlow (w : World) (url scheme : String) : Except ResolveErr (String × String) :=
  match processHttpReponse scheme (w.http url) with
  | Except.ok content => Except.ok (content, url)
  | Except.error (ResolveErr.httpStatus m) =>
      Except.error (ResolveErr.httpStatus (m ++ "" ++ url ++ "\nMake sure the URL is correct.\n"))
  | Except.error e => Except.error e

/-- The `ValueError` arm of `xmlFromURL` (lines 62-72): for a `file` scheme
strip the `file://` marker with `str.replace` (every occurrence), then test
the remaining string as a filesystem path. -/
def fileFlow (w : World) (url argType scheme : String) : Except ResolveErr (String × String) :=
  let p := if scheme = "file" then pyReplace url "file://" "" else url
  if w.isFile p then Except.ok (w.absolute p, p)
  else
    Except.error (ResolveErr.badPath
      ("Error: Invalid value for " ++ argType ++ "\nPath " ++ p ++ " does not exist.\n"))

/-- The `ftp` arm of `xmlFromURL` (lines 46-57 and 79-82), with the calls made
on the connection recorded as events.  `ftp.login()` with no arguments is the
anonymous login.  On success the retrieved chunks are written into a fresh
`Buffer` and `r.read()` is taken from the buffer's current position; the
connection is closed only on this path.  An `ftplib.Error` from login or
retrieval is wrapped into `str(err) + f" ({url})..."` and the handler returns
without touching the connection again. -/
def ftpFlow (w : World) (url : String) : Except ResolveErr (String × String) × List FtpEvent :=
  let host := (parseUrl url).2.1
  let pth := (parseUrl url).2.2
  let cmd := "RETR " ++ pth
  match w.ftpLogin host with
  | some e =>
      (Except.error (ResolveErr.ftpProto (e ++ " (" ++ url ++ ")\nMake sure the URL is correct.\n")),
       [FtpEvent.connect host, FtpEvent.login])
  | none =>
    match w.ftpRetr host cmd with
    | Except.error e =>
        (Except.error (ResolveErr.ftpProto (e ++ " (" ++ url ++ ")\nMake sure the URL is correct.\n")),
         [FtpEvent.connect host, FtpEvent.login, FtpEvent.retr cmd])
    | Except.ok chunks =>
        let buf := chunks.foldl Buffer.write { data := [], pos := 0 }
        let byteStr := buf.data.drop buf.pos
        (Except.ok (w.decodeUtf8 byteStr, url),
         [FtpEvent.connect host, FtpEvent.login, FtpEvent.retr cmd, FtpEvent.close])

/-- `xmlFromURL` (lines 38-82) together with the trace of FTP-connection calls.
Dispatch follows the source's net control flow: `file` raises `ValueError`
explicitly and any scheme other than `http`/`https`/`ftp` makes `requests.get`
raise a `ValueError` subclass, so both land in the file branch; `ftp` runs the
FTP branch; `http`/`https` run the GET. -/
def xmlFromURLT (w : World) (url argType : String) :
    Except ResolveErr (String × String) × List FtpEvent :=
  let scheme := (parseUrl url).1
  if scheme = "ftp" then ftpFlow w url
  else if scheme = "http" ∨ scheme = "https" then (httpFlow w url scheme, [])
  else (fileFlow w url argType scheme, [])

/-- `xmlFromURL`'s returned value (content, requested url). -/
def xmlFromURL (w : World) (url argType : String) : Except ResolveErr (String × String) :=
  (xmlFromURLT w url argType).1

/-- Outcome of `xmlschema.validate`: success, an `XMLSchemaValidationError`, a
`ParseError`, or another `XMLSchemaException`, each carrying `str(err)`. -/
inductive ValidationOutcome where
  | valid
  | invalid (detail : String)
  | parseFailed (detail : String)
  | schemaExc (detail : String)
deriving DecidableEq

/-- The black-box validation engine: its outcome on the resolved XML argument
and the schema argument. -/
abbrev Validator := String → String → ValidationOutcome

/-- Lines 99-100: the resolved schema content replaces the schema argument only
when it is truthy, i.e. a non-empty string. -/
def schemaArg (xsdResp schemaFile : String) : String :=
  if xsdResp = "" then schemaFile else xsdResp

/-- Characters after the last slash, accumulator-style. -/
def basenameAux : List Char → List Char → List Char
  | acc, [] => acc.reverse
  | acc, x :: xs => if x = '/' then basenameAux [] xs else basenameAux (x :: acc) xs

/-- `click.format_filename(..., shorten=True)`, i.e. `os.path.basename`. -/
def formatFilenameShort (p : String) : String := String.mk (basenameAux [] p.toList)

/-- First line of a valid/invalid report (lines 109-113 and 118-122): URL style
names the requested URL, file style names the shortened resolved string. -/
def reportHeader (fromUrl : Bool) (resolvedXml requestedUrl : String) : String :=
  if fromUrl then "The XML from the URL:\n" ++ (requestedUrl ++ "\n")
  else "The XML file: " ++ (formatFilenameShort resolvedXml ++ "\n")

/-- The second `try` block of `cli` (lines 106-140): run the validator and
format each outcome; `click.echo`/`click.secho` append a newline to each
printed string. -/
def validateAndReport (v : Validator) (xmlResolved requestedUrl schema : String)
    (verbose : Bool) : String :=
  let fromUrl := !pyStartsWith xmlResolved "/"
  match v xmlResolved schema with
  | ValidationOutcome.valid =>
      reportHeader fromUrl xmlResolved requestedUrl ++ "is valid.\n\n"
  | ValidationOutcome.invalid d =>
      reportHeader fromUrl xmlResolved requestedUrl ++
        ("is invalid.\n\n" ++ (if verbose then "Error:\n" ++ (d ++ "\n") else ""))
  | ValidationOutcome.parseFailed d =>
      "Faulty XML or XSD file was given.\n\n" ++ (if verbose then "Error: " ++ (d ++ "\n") else "")
  | ValidationOutcome.schemaExc d =>
      if !verbose then
        "\nValidation ran into an unexpected error. Run command with --verbose option for more details\n\n"
      else "Error: " ++ (d ++ "\n")

/-- `cli` (lines 85-140): resolve both arguments (echoing a resolution error
and returning), decide the report style from the resolved XML, substitute the
schema argument when the resolved schema content is non-empty, then validate
and report.  The returned string is the process stdout. -/
def cli (w : World) (v : Validator) (xmlFile schemaFile : String) (verbose : Bool) : String :=
  match xmlFromURL w xmlFile "XML_FILE" with
  | Except.error e => e.text ++ "\n"
  | Except.ok (xmlResolved, requestedUrl) =>
    match xmlFromURL w schemaFile "SCHEMA_FILE" with
    | Except.error e => e.text ++ "\n"
    | Except.ok (xsdResp, _) =>
        validateAndReport v xmlResolved requestedUrl (schemaArg xsdResp schemaFile) verbose

/-- Modelled from the spec: the argument-parsing layer (Click) is not part of
`src/validator`; per the spec and the repository's tests it exits with code 2
and a usage message when the positional-argument count is not two. -/
def usageErrorMsg (pos : List String) : String :=
  if pos.length = 0 then "Error: Missing argument 'XML_FILE'"
  else if pos.length = 1 then "Error: Missing argument 'SCHEMA_FILE'"
  else "Error: Got unexpected extra argument"

/-- A whole invocation: stdout text and process exit code.  With exactly two
positional arguments the command body runs and returns normally (every runtime
error is caught and echoed), exit code 0; otherwise the argument-parsing layer
exits with code 2. -/
def cliInvoke (w : World) (v : Validator) (pos : List String) (verbose : Bool) : String × Nat :=
  match pos with
  | [x, s] => (cli w v x s verbose, 0)
  | _ => (usageErrorMsg pos, 2)

/-! Concrete environments and validators used by witnesses and counterexamples. -/

/-- A benign environment: every GET yields a 200 XML response, FTP logins
succeed and retrievals deliver nothing, no local file exists, absolute paths
are rooted at `/abs`, and decoding maps code points straight to characters
(exact for the ASCII payloads used below). -/
def baseWorld : World := {
  http := fun u =>
    { status := 200, reason := "OK", contentType := "application/xml", body := "<x/>", finalUrl := u },
  ftpLogin := fun _ => none,
  ftpRetr := fun _ _ => Except.ok [],
  isFile := fun _ => false,
  absolute := fun p => "/abs" ++ p,
  decodeUtf8 := fun bs => String.mk (bs.map Char.ofNat) }

/-- Environment where `a.xml` and `a.xsd` exist locally under `/work`. -/
def localWorld : World := { baseWorld with
  isFile := fun p => p == "a.xml" || p == "a.xsd", absolute := fun p => "/work/" ++ p }

/-- Environment serving a valid XML body over HTTP, with `a.xsd` local. -/
def httpWorld : World := { baseWorld with
  http := fun u =>
    { status := 200, reason := "OK", contentType := "application/xml", body := "<sample/>", finalUrl := u },
  isFile := fun p => p == "a.xsd", absolute := fun p => "/work/" ++ p }

/-- Environment answering 201 with an HTML body: a 2xx status that is not 200. -/
def httpCexWorld : World := { baseWorld with
  http := fun u =>
    { status := 201, reason := "Created", contentType := "text/html", body := "<a/>", finalUrl := u } }

/-- Environment answering 404. -/
def badStatusWorld : World := { baseWorld with
  http := fun u =>
    { status := 404, reason := "Not Found", contentType := "text/html", body := "nope", finalUrl := u } }

/-- Environment where only the path `/ab` exists. -/
def fileCexWorld : World := { baseWorld with
  isFile := fun p => p == "/ab", absolute := fun p => "/abs" ++ p }

/-- Environment whose FTP retrieval raises a protocol error. -/
def ftpFailWorld : World := { baseWorld with
  ftpRetr := fun _ _ => Except.error "550 No such file" }

/-- Environment whose FTP retrieval delivers the bytes of `<a/>`. -/
def ftpOkWorld : World := { baseWorld with
  ftpRetr := fun _ _ => Except.ok [[60, 97, 47, 62]] }

/-- Environment with a local `a.xml` and an FTP server for the schema. -/
def ftpSchemaWorld : World := { baseWorld with
  isFile := fun p => p == "a.xml", absolute := fun p => "/work/" ++ p,
  ftpRetr := fun _ _ => Except.ok [[60]] }

/-- Environment whose HTTP body is a string that begins with a slash. -/
def slashBodyWorld : World := { baseWorld with
  http := fun u =>
    { status := 200, reason := "OK", contentType := "application/xml",
      body := "/private/x.xml", finalUrl := u },
  isFile := fun p => p == "s.xsd", absolute := fun p => "/work/" ++ p }

/-- Validator that accepts everything. -/
def vValid : Validator := fun _ _ => ValidationOutcome.valid

/-- Validator that reports a schema-validation failure. -/
def vInvalid : Validator := fun _ _ => ValidationOutcome.invalid "failed validating detail"

/-- Validator that reports a parse error. -/
def vFaulty : Validator := fun _ _ => ValidationOutcome.parseFailed "syntax error: line 1"

/-- The spec's words for the `file://` handling, for comparison with the
source's `str.replace`: strip one leading `file://` marker only. -/
def specStripLeading (u : String) : String :=
  if pyStartsWith u "file://" then u.drop 7 else u

/-- Helper: `raise_for_status` produces a message exactly for 4xx/5xx statuses. -/
theorem raiseForStatus_isSome (r : HttpResponse) :
    (raiseForStatus r).isSome = true ↔ 400 ≤ r.status ∧ r.status ≤ 599 := by
  by_cases h4 : 400 ≤ r.status ∧ r.status ≤ 499
  · simp only [raiseForStatus, if_pos h4, Option.isSome_some, true_iff]; omega
  · by_cases h5 : 500 ≤ r.status ∧ r.status ≤ 599
    · simp only [raiseForStatus, if_neg h4, if_pos h5, Option.isSome_some, true_iff]; omega
    · simp only [raiseForStatus, if_neg h4, if_neg h5, Option.isSome_none,
        Bool.false_eq_true, false_iff]; omega

/-- C1: with exactly two positional arguments the process exit code is 0
whatever the run's outcome (the command body catches every resolution or
validation error and returns normally); a non-zero exit code, namely 2, occurs
exactly when the positional-argument count is wrong. -/
theorem cli_exit_code_usage_only (w : World) (v : Validator) (pos : List String) (vb : Bool) :
    (cliInvoke w v pos vb).2 = if pos.length = 2 then 0 else 2 := by
  match pos with
  | [] => rfl
  | [_] => rfl
  | [_, _] => rfl
  | _ :: _ :: _ :: _ => rfl

/-- C2: when both arguments resolve and the validator accepts, the output is
exactly `"The XML file: <name>\nis valid.\n\n"` for an XML resolved to an
absolute path (a local file), and exactly
`"The XML from the URL:\n<url>\nis valid.\n\n"` for an XML fetched over HTTP
(a well-formed XML body cannot begin with a slash, which the second part
carries as the hypothesis on `pyStartsWith`). -/
theorem cli_valid_output_exact (w : World) (v : Validator) (vb : Bool) :
    (∀ xmlArg xsdArg p u r u2,
        xmlFromURL w xmlArg "XML_FILE" = Except.ok (p, u) →
        pyStartsWith p "/" = true →
        xmlFromURL w xsdArg "SCHEMA_FILE" = Except.ok (r, u2) →
        v p (schemaArg r xsdArg) = ValidationOutcome.valid →
        cli w v xmlArg xsdArg vb = "The XML file: " ++ formatFilenameShort p ++ "\nis valid.\n\n")
  ∧ (∀ xmlArg xsdArg body r u2,
        (parseUrl xmlArg).1 = "http" →
        xmlFromURL w xmlArg "XML_FILE" = Except.ok (body, xmlArg) →
        pyStartsWith body "/" = false →
        xmlFromURL w xsdArg "SCHEMA_FILE" = Except.ok (r, u2) →
        v body (schemaArg r xsdArg) = ValidationOutcome.valid →
        cli w v xmlArg xsdArg vb = "The XML from the URL:\n" ++ xmlArg ++ "\nis valid.\n\n") := by
  constructor
  · intro xmlArg xsdArg p u r u2 hx hsl hs hv
    simp only [cli, hx, hs, validateAndReport, hv, reportHeader, hsl, Bool.not_true,
      Bool.false_eq_true, if_false]
    simp only [String.append_assoc]; rfl
  · intro xmlArg xsdArg body r u2 _ hx hsl hs hv
    simp only [cli, hx, hs, validateAndReport, hv, reportHeader, hsl, Bool.not_false, if_true]
    simp only [String.append_assoc]; rfl

/-- C2 witness: a local pair under `localWorld` and an HTTP fetch under
`httpWorld`, both accepted, print the two exact messages. -/
theorem cli_valid_output_exact_witness :
    cli localWorld vValid "a.xml" "a.xsd" false = "The XML file: a.xml\nis valid.\n\n"
  ∧ cli httpWorld vValid "http://e/s.xml" "a.xsd" false =
      "The XML from the URL:\nhttp://e/s.xml\nis valid.\n\n" := by
  constructor
  · exact ((cli_valid_output_exact localWorld vValid false).1 "a.xml" "a.xsd" "/work/a.xml"
      "a.xml" "/work/a.xsd" "a.xsd" rfl rfl rfl rfl).trans rfl
  · exact ((cli_valid_output_exact httpWorld vValid false).2 "http://e/s.xml" "a.xsd" "<sample/>"
      "/work/a.xsd" "a.xsd" rfl rfl rfl rfl rfl).trans rfl

/-- C3 counterexample: a 201 response (2xx but not 200) with Content-Type
`text/html`.  The claim requires a "content is not XML" failure for a 2xx
non-XML response and, failing that, the response body; the resolver instead
succeeds with the empty string, which is not the body. -/
theorem http_status_claim_cex :
    xmlFromURL httpCexWorld "http://e/x" "XML_FILE" = Except.ok ("", "http://e/x")
  ∧ (httpCexWorld.http "http://e/x").status = 201
  ∧ contentTypeOk (httpCexWorld.http "http://e/x").contentType = false
  ∧ (httpCexWorld.http "http://e/x").body ≠ "" :=
  ⟨rfl, rfl, rfl, by decide⟩

/-- C3 amended: for an http/https argument the resolver fails with an
HTTP-error message exactly when `raise_for_status` produces one, i.e. for
statuses 400-599; the content-type check runs only when the status is exactly
200, failing with the "content is not XML" error when the Content-Type
contains neither `text/plain` nor `xml`; a 200 with acceptable Content-Type
returns the body; every other status returns the empty string. -/
theorem http_resolution_behavior (w : World) (url t : String)
    (hs : (parseUrl url).1 = "http" ∨ (parseUrl url).1 = "https") :
    (xmlFromURL w url t =
      match raiseForStatus (w.http url) with
      | some m => Except.error (ResolveErr.httpStatus
          (m ++ "" ++ url ++ "\nMake sure the URL is correct.\n"))
      | none =>
        if (w.http url).status = 200 then
          (if contentTypeOk (w.http url).contentType = false then
            Except.error (ResolveErr.notXml
              ("Error: Content of the URL (" ++ (w.http url).finalUrl ++
                ")\nis not in XML format. Make sure the URL is correct.\n"))
          else Except.ok ((w.http url).body, url))
        else Except.ok ("", url))
  ∧ ((raiseForStatus (w.http url)).isSome = true ↔
      400 ≤ (w.http url).status ∧ (w.http url).status ≤ 599) := by
  refine ⟨?_, raiseForStatus_isSome _⟩
  have hred : xmlFromURL w url t = httpFlow w url (parseUrl url).1 := by
    rcases hs with h | h <;> simp [xmlFromURL, xmlFromURLT, h]
  rw [hred]
  by_cases h200 : (w.http url).status = 200
  · have hrs : raiseForStatus (w.http url) = none := by
      simp only [raiseForStatus, h200]
      norm_num
    by_cases hct : contentTypeOk (w.http url).contentType = false
    · rcases hs with h | h <;>
        simp [httpFlow, processHttpReponse, h200, hct, hrs, h]
    · have hctT : contentTypeOk (w.http url).contentType = true := by
        revert hct; cases contentTypeOk (w.http url).contentType <;> simp
      rcases hs with h | h <;>
        simp [httpFlow, processHttpReponse, h200, hctT, hrs, h]
  · rcases hcase : raiseForStatus (w.http url) with _ | m <;>
      simp [httpFlow, processHttpReponse, h200, hcase]

/-- C3 witness: a 404 answer makes the resolver fail with the wrapped
`HTTPError` message. -/
theorem http_resolution_behavior_witness :
    xmlFromURL badStatusWorld "http://e/x" "XML_FILE" =
      Except.error (ResolveErr.httpStatus
        ("404 Client Error: Not Found for url: http://e/x" ++ "" ++ "http://e/x" ++
          "\nMake sure the URL is correct.\n")) := by
  exact ((http_resolution_behavior badStatusWorld "http://e/x" "XML_FILE" (Or.inl rfl)).1).trans rfl

/-- C4: at the failing input `ftp://h/f.xml`, whose retrieval delivers the
bytes of `<a/>`, the resolver returns the empty string as content rather than
the UTF-8 decoding of the retrieved bytes: `r.read()` is taken from the
buffer's position, which the writes have left at the end of the data. -/
theorem ftp_content_always_empty_bug :
    (xmlFromURLT ftpOkWorld "ftp://h/f.xml" "SCHEMA_FILE").1 = Except.ok ("", "ftp://h/f.xml")
  ∧ ftpOkWorld.ftpRetr "h" "RETR /f.xml" = Except.ok [[60, 97, 47, 62]]
  ∧ ftpOkWorld.decodeUtf8 ([[60, 97, 47, 62]] : List (List Nat)).flatten = "<a/>"
  ∧ ("" : String) ≠ "<a/>" :=
  ⟨rfl, rfl, rfl, by decide⟩

/-- C5 counterexample: when the FTP retrieval raises a protocol error the
connection is never closed — the recorded calls stop at `retr`, with no
`close` event — while the resolver raises the FTP-error message. -/
theorem ftp_close_not_called_cex :
    (xmlFromURLT ftpFailWorld "ftp://h/f.xml" "SCHEMA_FILE").2 =
      [FtpEvent.connect "h", FtpEvent.login, FtpEvent.retr "RETR /f.xml"]
  ∧ FtpEvent.close ∉ (xmlFromURLT ftpFailWorld "ftp://h/f.xml" "SCHEMA_FILE").2
  ∧ (xmlFromURLT ftpFailWorld "ftp://h/f.xml" "SCHEMA_FILE").1 =
      Except.error (ResolveErr.ftpProto
        ("550 No such file" ++ " (" ++ "ftp://h/f.xml" ++ ")\nMake sure the URL is correct.\n")) :=
  ⟨rfl, by decide, rfl⟩

/-- C5 amended: on a successful retrieval the resolver performs connect,
anonymous login, binary retrieval and close exactly once each, in that order,
before returning; when the retrieval raises an FTP protocol error the resolver
raises the FTP-error message without closing the connection. -/
theorem ftp_connection_event_trace (w : World) (url t : String)
    (hscheme : (parseUrl url).1 = "ftp")
    (hlogin : w.ftpLogin (parseUrl url).2.1 = none) :
    (∀ chunks, w.ftpRetr (parseUrl url).2.1 ("RETR " ++ (parseUrl url).2.2) = Except.ok chunks →
        (xmlFromURLT w url t).2 =
          [FtpEvent.connect (parseUrl url).2.1, FtpEvent.login,
           FtpEvent.retr ("RETR " ++ (parseUrl url).2.2), FtpEvent.close])
  ∧ (∀ e, w.ftpRetr (parseUrl url).2.1 ("RETR " ++ (parseUrl url).2.2) = Except.error e →
        (xmlFromURLT w url t).2 =
          [FtpEvent.connect (parseUrl url).2.1, FtpEvent.login,
           FtpEvent.retr ("RETR " ++ (parseUrl url).2.2)]
      ∧ (xmlFromURLT w url t).1 =
          Except.error (ResolveErr.ftpProto
            (e ++ " (" ++ url ++ ")\nMake sure the URL is correct.\n"))) := by
  constructor
  · intro chunks hr
    simp [xmlFromURLT, ftpFlow, hscheme, hlogin, hr]
  · intro e hr
    constructor <;> simp [xmlFromURLT, ftpFlow, hscheme, hlogin, hr]

/-- C5 witness: a successful retrieval under `baseWorld` yields exactly the
connect, login, retrieve, close sequence. -/
theorem ftp_connection_event_trace_witness :
    (xmlFromURLT baseWorld "ftp://h/f.xml" "SCHEMA_FILE").2 =
      [FtpEvent.connect "h", FtpEvent.login, FtpEvent.retr "RETR /f.xml", FtpEvent.close] := by
  exact ((ftp_connection_event_trace baseWorld "ftp://h/f.xml" "SCHEMA_FILE" rfl rfl).1 [] rfl).trans rfl

/-- C6 counterexample: on `file:///afile://b` the claim's leading-prefix strip
leaves `/afile://b`, which does not exist in `fileCexWorld`, so the claim
predicts a "path does not exist" failure naming `/afile://b`; the code strips
every `file://` occurrence, obtaining `/ab`, which exists, and succeeds. -/
theorem file_strip_all_occurrences_cex :
    specStripLeading "file:///afile://b" = "/afile://b"
  ∧ pyReplace "file:///afile://b" "file://" "" = "/ab"
  ∧ fileCexWorld.isFile "/afile://b" = false
  ∧ xmlFromURL fileCexWorld "file:///afile://b" "XML_FILE" = Except.ok ("/abs/ab", "/ab") :=
  ⟨rfl, rfl, rfl, rfl⟩

/-- C6 amended: for an argument with no scheme or a `file` scheme, the code
removes every occurrence of `file://` (Python `str.replace`, not only a
leading prefix), treats the remaining string as a filesystem path, fails with
exactly `"Error: Invalid value for <label>\nPath <path> does not exist.\n"`
when the path is not found, and otherwise returns its absolute path. -/
theorem file_path_resolution (w : World) (url t p : String)
    (hscheme : (parseUrl url).1 = "file" ∨ (parseUrl url).1 = "")
    (hp : p = (if (parseUrl url).1 = "file" then pyReplace url "file://" "" else url)) :
    (w.isFile p = true → xmlFromURL w url t = Except.ok (w.absolute p, p))
  ∧ (w.isFile p = false → xmlFromURL w url t =
      Except.error (ResolveErr.badPath
        ("Error: Invalid value for " ++ t ++ "\nPath " ++ p ++ " does not exist.\n"))) := by
  subst hp
  rcases hscheme with h | h <;> rw [h] <;> constructor <;> intro hf <;>
    simp only [String.reduceEq, reduceIte] at hf <;>
    simp [xmlFromURL, xmlFromURLT, fileFlow, h, hf]

/-- C6 witness: an existing `file://` path resolves to its absolute form, and
a missing plain path fails with the exact message. -/
theorem file_path_resolution_witness :
    xmlFromURL fileCexWorld "file:///ab" "XML_FILE" = Except.ok ("/abs/ab", "/ab")
  ∧ xmlFromURL fileCexWorld "nope.xml" "XML_FILE" =
      Except.error (ResolveErr.badPath
        ("Error: Invalid value for " ++ "XML_FILE" ++ "\nPath " ++ "nope.xml" ++
          " does not exist.\n")) := by
  constructor
  · exact ((file_path_resolution fileCexWorld "file:///ab" "XML_FILE" "/ab"
      (Or.inl rfl) rfl).1 rfl).trans rfl
  · exact ((file_path_resolution fileCexWorld "nope.xml" "XML_FILE" "nope.xml"
      (Or.inr rfl) rfl).2 rfl).trans rfl

/-- C7: a well-formed but non-conformant local pair prints exactly
`"The XML file: <name>\nis invalid.\n\n"` without the verbose flag, and with it
the same text followed by `"Error:\n"` and the validator's detail. -/
theorem cli_invalid_output_exact (w : World) (v : Validator) (xmlArg xsdArg p u r u2 d : String)
    (hx : xmlFromURL w xmlArg "XML_FILE" = Except.ok (p, u))
    (hsl : pyStartsWith p "/" = true)
    (hs : xmlFromURL w xsdArg "SCHEMA_FILE" = Except.ok (r, u2))
    (hv : v p (schemaArg r xsdArg) = ValidationOutcome.invalid d) :
    cli w v xmlArg xsdArg false = "The XML file: " ++ formatFilenameShort p ++ "\nis invalid.\n\n"
  ∧ cli w v xmlArg xsdArg true =
      "The XML file: " ++ formatFilenameShort p ++ "\nis invalid.\n\nError:\n" ++ d ++ "\n" := by
  constructor
  · simp only [cli, hx, hs, validateAndReport, hv, reportHeader, hsl, Bool.not_true,
      Bool.false_eq_true, if_false]
    simp only [String.append_assoc]; rfl
  · simp only [cli, hx, hs, validateAndReport, hv, reportHeader, hsl, Bool.not_true,
      Bool.false_eq_true, if_false, if_true]
    simp only [String.append_assoc]; rfl

/-- C7 witness: the invalid pair under `localWorld`, without and with the
verbose flag. -/
theorem cli_invalid_output_exact_witness :
    cli localWorld vInvalid "a.xml" "a.xsd" false = "The XML file: a.xml\nis invalid.\n\n"
  ∧ cli localWorld vInvalid "a.xml" "a.xsd" true =
      "The XML file: a.xml\nis invalid.\n\nError:\nfailed validating detail\n" := by
  have h := cli_invalid_output_exact localWorld vInvalid "a.xml" "a.xsd" "/work/a.xml" "a.xml"
    "/work/a.xsd" "a.xsd" "failed validating detail" rfl rfl rfl rfl
  exact ⟨h.1.trans rfl, h.2.trans rfl⟩

/-- C8: a parse error prints exactly `"Faulty XML or XSD file was given.\n\n"`
without the verbose flag, and with it the parse-error text follows the fixed
message. -/
theorem cli_faulty_output_exact (w : World) (v : Validator) (xmlArg xsdArg p u r u2 d : String)
    (hx : xmlFromURL w xmlArg "XML_FILE" = Except.ok (p, u))
    (hs : xmlFromURL w xsdArg "SCHEMA_FILE" = Except.ok (r, u2))
    (hv : v p (schemaArg r xsdArg) = ValidationOutcome.parseFailed d) :
    cli w v xmlArg xsdArg false = "Faulty XML or XSD file was given.\n\n"
  ∧ cli w v xmlArg xsdArg true = "Faulty XML or XSD file was given.\n\nError: " ++ d ++ "\n" := by
  constructor
  · simp only [cli, hx, hs, validateAndReport, hv]
    rfl
  · simp only [cli, hx, hs, validateAndReport, hv]
    simp only [String.append_assoc]; rfl

/-- C8 witness: the malformed pair under `localWorld`, without and with the
verbose flag. -/
theorem cli_faulty_output_exact_witness :
    cli localWorld vFaulty "a.xml" "a.xsd" false = "Faulty XML or XSD file was given.\n\n"
  ∧ cli localWorld vFaulty "a.xml" "a.xsd" true =
      "Faulty XML or XSD file was given.\n\nError: syntax error: line 1\n" := by
  have h := cli_faulty_output_exact localWorld vFaulty "a.xml" "a.xsd" "/work/a.xml" "a.xml"
    "/work/a.xsd" "a.xsd" "syntax error: line 1" rfl rfl rfl
  exact ⟨h.1.trans rfl, h.2.trans rfl⟩

/-- C9: the file-versus-URL report style is decided solely by whether the
resolved XML content begins with `/` — URL style when it does not, file style
(with the shortened resolved string) when it does — for both the valid and the
invalid outcome, with no reference to the original argument's scheme. -/
theorem report_style_leading_slash (w : World) (v : Validator) :
    (∀ xmlArg xsdArg c u r u2,
        xmlFromURL w xmlArg "XML_FILE" = Except.ok (c, u) →
        xmlFromURL w xsdArg "SCHEMA_FILE" = Except.ok (r, u2) →
        v c (schemaArg r xsdArg) = ValidationOutcome.valid →
        cli w v xmlArg xsdArg false =
          (if pyStartsWith c "/" = true then "The XML file: " ++ formatFilenameShort c ++ "\n"
           else "The XML from the URL:\n" ++ u ++ "\n") ++ "is valid.\n\n")
  ∧ (∀ xmlArg xsdArg c u r u2 d,
        xmlFromURL w xmlArg "XML_FILE" = Except.ok (c, u) →
        xmlFromURL w xsdArg "SCHEMA_FILE" = Except.ok (r, u2) →
        v c (schemaArg r xsdArg) = ValidationOutcome.invalid d →
        cli w v xmlArg xsdArg false =
          (if pyStartsWith c "/" = true then "The XML file: " ++ formatFilenameShort c ++ "\n"
           else "The XML from the URL:\n" ++ u ++ "\n") ++ "is invalid.\n\n") := by
  constructor
  · intro xmlArg xsdArg c u r u2 hx hs hv
    simp only [cli, hx, hs, validateAndReport, hv, reportHeader]
    cases hsl : pyStartsWith c "/" <;>
      simp only [hsl, Bool.not_true, Bool.not_false, Bool.false_eq_true, if_false, if_true,
        String.append_assoc]
  · intro xmlArg xsdArg c u r u2 d hx hs hv
    simp only [cli, hx, hs, validateAndReport, hv, reportHeader]
    cases hsl : pyStartsWith c "/" <;>
      simp only [hsl, Bool.not_true, Bool.not_false, Bool.false_eq_true, if_false, if_true,
        String.append_assoc] <;> try rfl

/-- C9 witness: an HTTP-fetched body that begins with `/` is reported in file
style, using the shortened body string, despite the http scheme. -/
theorem report_style_leading_slash_witness :
    cli slashBodyWorld vValid "http://e/x.xml" "s.xsd" false =
      "The XML file: x.xml\nis valid.\n\n" := by
  exact ((report_style_leading_slash slashBodyWorld vValid).1 "http://e/x.xml" "s.xsd"
    "/private/x.xml" "http://e/x.xml" "/work/s.xsd" "s.xsd" rfl rfl rfl).trans rfl

/-- C10: after both resolutions succeed, the validator is called with the
resolved schema content exactly when that content is non-empty, and with the
original schema argument when the resolved content is the empty string. -/
theorem schema_replacement_only_nonempty (w : World) (v : Validator)
    (xmlArg xsdArg xr ru r u2 : String) (vb : Bool)
    (hx : xmlFromURL w xmlArg "XML_FILE" = Except.ok (xr, ru))
    (hs : xmlFromURL w xsdArg "SCHEMA_FILE" = Except.ok (r, u2)) :
    cli w v xmlArg xsdArg vb = validateAndReport v xr ru (schemaArg r xsdArg) vb
  ∧ schemaArg "" xsdArg = xsdArg
  ∧ (r ≠ "" → schemaArg r xsdArg = r) := by
  refine ⟨?_, rfl, ?_⟩
  · simp only [cli, hx, hs]
  · intro h
    simp only [schemaArg, if_neg h]

/-- C10 witness: a schema fetched over FTP resolves to the empty string, so
the validator receives the original `ftp://` argument unchanged. -/
theorem schema_replacement_only_nonempty_witness :
    cli ftpSchemaWorld vValid "a.xml" "ftp://h/s.xsd" false =
      validateAndReport vValid "/work/a.xml" "a.xml" "ftp://h/s.xsd" false
  ∧ schemaArg "" "ftp://h/s.xsd" = "ftp://h/s.xsd" := by
  have h := schema_replacement_only_nonempty ftpSchemaWorld vValid "a.xml" "ftp://h/s.xsd"
    "/work/a.xml" "a.xml" "" "ftp://h/s.xsd" false rfl rfl
  exact ⟨h.1.trans rfl, h.2.1⟩

end XmlValidatorCli
